import Mathlib

/-
Verification development for the GTU-C312 CPU simulator
(src/cpu.cpp final variant, src/common.h, src/instruction.h, parser.cpp).

The CPU state is memory-mapped: PC at cell 0, SP at cell 1, the
CPU-to-OS event word at cell 2, the instruction counter at cell 3,
the saved trap PC at cell 4 and the first trap argument at cell 5.
Memory is a finite array of signed words; we model it as a total
function `Int -> Int` together with an explicit size `msize`, and every
bounds-checked access (Memory::read / Memory::write) tests the index
against `msize` first, as Memory::checkAddress does.  The privileged
register accesses (getPC, setSP, setCpuEvent, ...) go straight to
memory; the CPU constructor rejects memories smaller than 21 cells, so
those accesses can never be out of range, and the model makes them
total.  C++ exceptions are modelled by an explicit result type: each
throw site is mapped to the constructor describing the exception class
and message that the catch blocks in CPU::step discriminate on.
-/

/-- Memory-mapped register addresses and OS handler PCs from src/common.h. -/
def PC_ADDR : Int := 0

/-- Stack pointer cell (src/common.h). -/
def SP_ADDR : Int := 1

/-- CPU-to-OS communication cell, holds the last CpuEvent (src/common.h). -/
def CPU_OS_COMM_ADDR : Int := 2

/-- Executed-instruction counter cell (src/common.h). -/
def INSTR_COUNT_ADDR : Int := 3

/-- Cell where the CPU saves the user PC on a syscall or fault (src/common.h). -/
def SAVED_TRAP_PC_ADDR : Int := 4

/-- Cell where the CPU passes the first syscall or fault argument (src/common.h). -/
def SYSCALL_ARG1_PASS_ADDR : Int := 5

/-- Last memory-mapped register address (src/common.h). -/
def REGISTERS_END_ADDR : Int := 20

/-- Handler PC of the OS syscall dispatcher (src/common.h). -/
def OS_SYSCALL_DISPATCHER_PC : Int := 50

/-- Handler PC of the OS memory-fault handler (src/common.h). -/
def OS_MEMORY_FAULT_HANDLER_PC : Int := 60

/-- Handler PC of the OS arithmetic-fault handler (src/common.h). -/
def OS_ARITHMETIC_FAULT_HANDLER_PC : Int := 70

/-- Handler PC for unknown-instruction faults; src/common.h defines it as
OS_MEMORY_FAULT_HANDLER_PC ("Can reuse memory fault or have a new one"). -/
def OS_UNKNOWN_INSTRUCTION_HANDLER_PC : Int := OS_MEMORY_FAULT_HANDLER_PC

/-- First user-accessible address; 21..999 is the OS-private data area (src/common.h). -/
def USER_MEMORY_START_ADDR : Int := 1000

/-- Last address of the OS-private data area (src/common.h). -/
def OS_DATA_END_ADDR : Int := 999

/-- Event codes written to CPU_OS_COMM_ADDR (enum class CpuEvent in src/common.h). -/
inductive CpuEvent where
  | NONE
  | SYSCALL_PRN
  | SYSCALL_HLT_THREAD
  | SYSCALL_YIELD
  | MEMORY_FAULT_USER
  | UNKNOWN_INSTRUCTION_FAULT
  | ARITHMETIC_FAULT
deriving DecidableEq

/-- Numeric value of each CpuEvent (the static_cast<long> in setCpuEvent). -/
def CpuEvent.toLong : CpuEvent → Int
  | .NONE => 0
  | .SYSCALL_PRN => 1
  | .SYSCALL_HLT_THREAD => 2
  | .SYSCALL_YIELD => 3
  | .MEMORY_FAULT_USER => 4
  | .UNKNOWN_INSTRUCTION_FAULT => 5
  | .ARITHMETIC_FAULT => 6

/-- Operation codes (enum class OpCode in src/instruction.h). -/
inductive OpCode where
  | SET
  | CPY
  | CPYI
  | CPYI2
  | ADD
  | ADDI
  | SUBI
  | JIF
  | PUSH
  | POP
  | CALL
  | RET
  | HLT
  | USER
  | STOREI
  | LOADI
  | SYSCALL_PRN
  | SYSCALL_HLT_THREAD
  | SYSCALL_YIELD
  | UNKNOWN
deriving DecidableEq

/-- A decoded instruction (struct Instruction in src/instruction.h). -/
structure Instruction where
  opcode : OpCode
  arg1 : Int
  arg2 : Int
  num_operands : Int
  original_line : String
deriving DecidableEq

/-- The default-constructed Instruction: opcode UNKNOWN, zero operands, empty
source text.  parseInstructionSection produces these for skipped slots and
CPU::step recognises them as holes. -/
def Instruction.hole : Instruction :=
  { opcode := .UNKNOWN, arg1 := 0, arg2 := 0, num_operands := 0, original_line := "" }

/-- The machine state seen by CPU::step: the Memory object (size plus
contents), the two CPU-internal flags, the pc_modified_by_data_operation_
flag, and the list of values emitted through the PRN callback so far. -/
structure CPUState where
  msize : Nat
  mem : Int → Int
  halted : Bool
  userMode : Bool
  pcModifiedByData : Bool
  output : List Int

/-- Unchecked memory update, used for the privileged register accesses
(setPC, setSP, incrementInstructionCounter, setCpuEvent and the direct
memory_.write calls in the trap paths).  The CPU constructor guarantees
msize is at least 21, so these accesses at cells 0..5 are always in
bounds in the C++ code. -/
def privWrite (s : CPUState) (a v : Int) : CPUState :=
  { s with mem := fun b => if b = a then v else s.mem b }

/-- Memory::read with its bounds check (Memory::checkAddress); an
out-of-range index raises std::out_of_range, modelled as the error case. -/
def memRead (s : CPUState) (a : Int) : Except Unit Int :=
  if 0 ≤ a ∧ a < (s.msize : Int) then .ok (s.mem a) else .error ()

/-- Memory::write with its bounds check. -/
def memWrite (s : CPUState) (a v : Int) : Except Unit CPUState :=
  if 0 ≤ a ∧ a < (s.msize : Int) then .ok (privWrite s a v) else .error ()

/-- The exception classes that CPU::step's catch blocks distinguish.
userMem is UserMemoryFaultException (carrying the faulting address);
stackOverflow is a std::runtime_error whose message contains
"Stack overflow" (the PUSH/CALL throw sites); pcOutOfBounds is the
runtime_error whose message contains "out of instruction bounds"; every
other std::runtime_error (bad operand counts, and out-of-range memory
accesses re-thrown by checkedRead/checkedWrite) matches none of the
substring tests in the catch block. -/
inductive Fault where
  | userMem (addr : Int)
  | stackOverflow
  | pcOutOfBounds
  | genericRuntime
deriving DecidableEq

/-- CPU::checkedRead: in user mode any address below USER_MEMORY_START_ADDR
that is also nonnegative raises UserMemoryFaultException; otherwise the
read is delegated to Memory and an out_of_range becomes a generic
runtime_error. -/
def checkedRead (s : CPUState) (a : Int) : Except Fault Int :=
  if s.userMode ∧ a < USER_MEMORY_START_ADDR ∧ 0 ≤ a then
    .error (.userMem a)
  else
    match memRead s a with
    | .ok v => .ok v
    | .error _ => .error .genericRuntime

/-- CPU::checkedWrite: same protection test as checkedRead; after a
successful write to PC_ADDR it sets pc_modified_by_data_operation_. -/
def checkedWrite (s : CPUState) (a v : Int) : Except Fault CPUState :=
  if s.userMode ∧ a < USER_MEMORY_START_ADDR ∧ 0 ≤ a then
    .error (.userMem a)
  else
    match memWrite s a v with
    | .ok s1 => .ok (if a = PC_ADDR then { s1 with pcModifiedByData := true } else s1)
    | .error _ => .error .genericRuntime

/-- Result of the instruction-execution part of CPU::step: either normal
completion with the updated state, the computed next_pc and the
pc_modified_by_instruction flag, or an exception carrying the state at
the moment of the throw (memory writes made before the throw persist). -/
inductive StepExec where
  | ok (s : CPUState) (nextPC : Int) (pcMod : Bool)
  | fault (f : Fault) (s : CPUState)

/-- Sequencing helper: propagate a checkedRead failure as a fault of the
current state, matching C++ exception flow. -/
def readThen (s : CPUState) (a : Int) (k : Int → StepExec) : StepExec :=
  match checkedRead s a with
  | .error f => .fault f s
  | .ok v => k v

/-- Sequencing helper: propagate a checkedWrite failure as a fault of the
current state. -/
def writeThen (s : CPUState) (a v : Int) (k : CPUState → StepExec) : StepExec :=
  match checkedWrite s a v with
  | .error f => .fault f s
  | .ok s1 => k s1

/-- The switch statement of CPU::step, for the instruction fetched at pc.
Default next_pc is pc + 1 with pc_modified_by_instruction false; each
case mirrors the corresponding case of the C++ switch, including the
order of reads and writes and the operand-count guards. -/
def execOp (i : Instruction) (s : CPUState) (pc : Int) : StepExec :=
  match i.opcode with
  | .SET =>
      if i.num_operands ≠ 2 then .fault .genericRuntime s else
      writeThen s i.arg2 i.arg1 (fun s1 => .ok s1 (pc + 1) false)
  | .CPY =>
      if i.num_operands ≠ 2 then .fault .genericRuntime s else
      readThen s i.arg1 (fun v =>
        writeThen s i.arg2 v (fun s1 => .ok s1 (pc + 1) false))
  | .CPYI =>
      if i.num_operands ≠ 2 then .fault .genericRuntime s else
      readThen s i.arg1 (fun a =>
        readThen s a (fun v =>
          writeThen s i.arg2 v (fun s1 => .ok s1 (pc + 1) false)))
  | .CPYI2 =>
      if i.num_operands ≠ 2 then .fault .genericRuntime s else
      readThen s i.arg1 (fun x =>
        readThen s i.arg2 (fun y =>
          readThen s x (fun v =>
            writeThen s y v (fun s1 => .ok s1 (pc + 1) false))))
  | .ADD =>
      if i.num_operands ≠ 2 then .fault .genericRuntime s else
      readThen s i.arg1 (fun v =>
        writeThen s i.arg1 (v + i.arg2) (fun s1 => .ok s1 (pc + 1) false))
  | .ADDI =>
      if i.num_operands ≠ 2 then .fault .genericRuntime s else
      readThen s i.arg1 (fun v1 =>
        readThen s i.arg2 (fun v2 =>
          writeThen s i.arg1 (v1 + v2) (fun s1 => .ok s1 (pc + 1) false)))
  | .SUBI =>
      if i.num_operands ≠ 2 then .fault .genericRuntime s else
      readThen s i.arg1 (fun v1 =>
        readThen s i.arg2 (fun v2 =>
          writeThen s i.arg2 (v1 - v2) (fun s1 => .ok s1 (pc + 1) false)))
  | .STOREI =>
      if i.num_operands ≠ 2 then .fault .genericRuntime s else
      readThen s i.arg1 (fun src =>
        readThen s i.arg2 (fun ptr =>
          writeThen s ptr src (fun s1 => .ok s1 (pc + 1) false)))
  | .LOADI =>
      if i.num_operands ≠ 2 then .fault .genericRuntime s else
      readThen s i.arg1 (fun ptr =>
        readThen s ptr (fun v =>
          writeThen s i.arg2 v (fun s1 => .ok s1 (pc + 1) false)))
  | .JIF =>
      if i.num_operands ≠ 2 then .fault .genericRuntime s else
      readThen s i.arg1 (fun v =>
        if v ≤ 0 then .ok s i.arg2 true else .ok s (pc + 1) false)
  | .PUSH =>
      if i.num_operands ≠ 1 then .fault .genericRuntime s else
      let sp := s.mem SP_ADDR - 1
      if sp < 0 then .fault .stackOverflow s else
      let s1 := privWrite s SP_ADDR sp
      readThen s1 i.arg1 (fun v =>
        writeThen s1 sp v (fun s2 => .ok s2 (pc + 1) false))
  | .POP =>
      if i.num_operands ≠ 1 then .fault .genericRuntime s else
      let sp := s.mem SP_ADDR
      readThen s sp (fun v =>
        let s1 := privWrite s SP_ADDR (sp + 1)
        writeThen s1 i.arg1 v (fun s2 => .ok s2 (pc + 1) false))
  | .CALL =>
      if i.num_operands ≠ 1 then .fault .genericRuntime s else
      let sp := s.mem SP_ADDR - 1
      if sp < 0 then .fault .stackOverflow s else
      let s1 := privWrite s SP_ADDR sp
      writeThen s1 sp (pc + 1) (fun s2 => .ok s2 i.arg1 true)
  | .RET =>
      if i.num_operands ≠ 0 then .fault .genericRuntime s else
      let sp := s.mem SP_ADDR
      readThen s sp (fun v =>
        let s1 := privWrite s SP_ADDR (sp + 1)
        .ok s1 v true)
  | .HLT =>
      if i.num_operands ≠ 0 then .fault .genericRuntime s else
      .ok { s with halted := true } pc true
  | .USER =>
      if i.num_operands ≠ 1 then .fault .genericRuntime s else
      readThen s i.arg1 (fun v =>
        .ok { s with userMode := true } v true)
  | .SYSCALL_PRN =>
      if i.num_operands ≠ 1 then .fault .genericRuntime s else
      let s1 := { s with userMode := false }
      readThen s1 i.arg1 (fun v =>
        let s2 := { s1 with output := s1.output ++ [v] }
        let s3 := privWrite s2 SAVED_TRAP_PC_ADDR (pc + 1)
        let s4 := privWrite s3 CPU_OS_COMM_ADDR CpuEvent.SYSCALL_PRN.toLong
        let s5 := privWrite s4 SYSCALL_ARG1_PASS_ADDR i.arg1
        .ok s5 OS_SYSCALL_DISPATCHER_PC true)
  | .SYSCALL_HLT_THREAD =>
      if i.num_operands ≠ 0 then .fault .genericRuntime s else
      let s1 := { s with userMode := false }
      let s2 := privWrite s1 SAVED_TRAP_PC_ADDR (pc + 1)
      let s3 := privWrite s2 CPU_OS_COMM_ADDR CpuEvent.SYSCALL_HLT_THREAD.toLong
      .ok s3 OS_SYSCALL_DISPATCHER_PC true
  | .SYSCALL_YIELD =>
      if i.num_operands ≠ 0 then .fault .genericRuntime s else
      let s1 := { s with userMode := false }
      let s2 := privWrite s1 SAVED_TRAP_PC_ADDR (pc + 1)
      let s3 := privWrite s2 CPU_OS_COMM_ADDR CpuEvent.SYSCALL_YIELD.toLong
      .ok s3 OS_SYSCALL_DISPATCHER_PC true
  | .UNKNOWN =>
      if s.userMode then
        let s1 := { s with userMode := false }
        let s2 := privWrite s1 SAVED_TRAP_PC_ADDR pc
        let s3 := privWrite s2 CPU_OS_COMM_ADDR CpuEvent.UNKNOWN_INSTRUCTION_FAULT.toLong
        .ok s3 OS_UNKNOWN_INSTRUCTION_HANDLER_PC true
      else
        .ok { s with halted := true } pc true

/-- Fetch the instruction-table slot for pc (program_instructions_[pc]);
only evaluated under the bounds guard in execPhase. -/
def fetchInstr (prog : List Instruction) (pc : Int) : Instruction :=
  prog.getD pc.toNat Instruction.hole

/-- The body of the try block in CPU::step: the PC bounds check (whose
runtime_error message contains "out of instruction bounds"), the test for
uninitialized hole slots (default Instruction, treated as implicit HLT
with next_pc staying at the hole), and the opcode switch. -/
def execPhase (prog : List Instruction) (s : CPUState) (pc : Int) : StepExec :=
  if pc < 0 ∨ (prog.length : Int) ≤ pc then .fault .pcOutOfBounds s
  else
    let i := fetchInstr prog pc
    if i.opcode = OpCode.UNKNOWN ∧ i.original_line = "" then
      .ok { s with halted := true } pc true
    else
      execOp i s pc

/-- The two catch blocks of CPU::step.  UserMemoryFaultException always
traps to the memory-fault handler, saving the faulting PC, event
MEMORY_FAULT_USER and the faulting address.  A std::runtime_error caught
while user_mode_flag_ is set is classified by message substrings: stack
issues become MEMORY_FAULT_USER, a PC out of instruction bounds becomes
UNKNOWN_INSTRUCTION_FAULT and anything else ARITHMETIC_FAULT; in kernel
mode any runtime_error is fatal (halt, PC preserved). -/
def handleFault (f : Fault) (st : CPUState) (pc : Int) : CPUState × Int × Bool :=
  match f with
  | .userMem addr =>
      let s1 := { st with userMode := false }
      let s2 := privWrite s1 SAVED_TRAP_PC_ADDR pc
      let s3 := privWrite s2 CPU_OS_COMM_ADDR CpuEvent.MEMORY_FAULT_USER.toLong
      let s4 := privWrite s3 SYSCALL_ARG1_PASS_ADDR addr
      (s4, OS_MEMORY_FAULT_HANDLER_PC, true)
  | f =>
      if st.userMode then
        let s1 := { st with userMode := false }
        let s2 := privWrite s1 SAVED_TRAP_PC_ADDR pc
        match f with
        | .stackOverflow =>
            (privWrite s2 CPU_OS_COMM_ADDR CpuEvent.MEMORY_FAULT_USER.toLong,
             OS_MEMORY_FAULT_HANDLER_PC, true)
        | .pcOutOfBounds =>
            (privWrite s2 CPU_OS_COMM_ADDR CpuEvent.UNKNOWN_INSTRUCTION_FAULT.toLong,
             OS_UNKNOWN_INSTRUCTION_HANDLER_PC, true)
        | _ =>
            (privWrite s2 CPU_OS_COMM_ADDR CpuEvent.ARITHMETIC_FAULT.toLong,
             OS_ARITHMETIC_FAULT_HANDLER_PC, true)
      else
        ({ st with halted := true }, pc, true)

/-- Execute-and-catch: run the try block and apply the catch blocks,
producing the state, next_pc and pc_modified_by_instruction that reach
the commit code.  The pc_modified_by_data_operation_ flag is cleared at
the start of the step, before execution. -/
def execAndHandle (prog : List Instruction) (s : CPUState) : CPUState × Int × Bool :=
  let pc := s.mem PC_ADDR
  match execPhase prog { s with pcModifiedByData := false } pc with
  | .ok st np pm => (st, np, pm)
  | .fault f st => handleFault f st pc

/-- incrementInstructionCounter: mem[3] gets one more than its current
value, unconditionally at the end of every non-halted-entry step. -/
def incICount (s : CPUState) : CPUState :=
  privWrite s INSTR_COUNT_ADDR (s.mem INSTR_COUNT_ADDR + 1)

/-- The PC-commit code at the end of CPU::step: skipped when halted;
otherwise the instruction-chosen next_pc wins, else a PC written by a
data operation is left in place, else the default next_pc is stored. -/
def commitPC (s : CPUState) (nextPC : Int) (pcMod : Bool) : CPUState :=
  if s.halted then s
  else if pcMod then privWrite s PC_ADDR nextPC
  else if s.pcModifiedByData then s
  else privWrite s PC_ADDR nextPC

/-- CPU::step: returns immediately when already halted, otherwise
fetch-execute with exception handling, then the instruction-counter
increment, then the PC commit. -/
def step (prog : List Instruction) (s : CPUState) : CPUState :=
  if s.halted then s
  else
    let r := execAndHandle prog s
    commitPC (incICount r.1) r.2.1 r.2.2

/-- The placement of one parsed instruction line by parseInstructionSection:
a negative index is a parse error; otherwise the table is resized with
default (hole) Instructions as needed and the slot is assigned,
overwriting whatever was there. -/
def placeInstruction (tbl : List Instruction) (idx : Int) (i : Instruction) :
    Except String (List Instruction) :=
  if idx < 0 then .error "Instruction PC cannot be negative."
  else
    let n := idx.toNat
    let grown := if tbl.length ≤ n then tbl ++ List.replicate (n + 1 - tbl.length) Instruction.hole else tbl
    .ok (grown.set n i)

/-- The loop of parseInstructionSection over the parsed (index, instruction)
pairs of the instruction section, threading the growing table. -/
def placeInstructions (lines : List (Int × Instruction)) (tbl : List Instruction) :
    Except String (List Instruction) :=
  match lines with
  | [] => .ok tbl
  | (idx, i) :: rest =>
      match placeInstruction tbl idx i with
      | .error e => .error e
      | .ok tbl1 => placeInstructions rest tbl1

/-- Convenience constructor for a freshly booted machine state: the CPU
constructor leaves halted and user-mode false and the callback output
empty; memory contents and size come from the loaded image. -/
def bootState (n : Nat) (m : Int → Int) (u : Bool) : CPUState :=
  { msize := n, mem := m, halted := false, userMode := u, pcModifiedByData := false, output := [] }

/-- The minimal halt image: instruction 0 is HLT, memory all zero. -/
def progHLT : List Instruction := [⟨.HLT, 0, 0, 0, "0 HLT"⟩]

/-- All-zero 21-cell memory in kernel mode (the smallest memory the CPU
constructor accepts). -/
def sZero21 : CPUState := bootState 21 (fun _ => 0) false

/-- A program whose only instruction stores 100 into the ICOUNT cell. -/
def progSet3 : List Instruction := [⟨.SET, 100, 3, 2, "0 SET 100 3"⟩]

/-- A program whose only instruction reads register-window address 20. -/
def progCpy20 : List Instruction := [⟨.CPY, 20, 1005, 2, "0 CPY 20 1005"⟩]

/-- All-zero 1100-cell memory already in user mode (as after USER). -/
def sUserZero1100 : CPUState := bootState 1100 (fun _ => 0) true

/-- A program whose only instruction is SYSCALL PRN 500: address 500 lies
in the supervisor-private region 21..999. -/
def progPrn500 : List Instruction := [⟨.SYSCALL_PRN, 500, 0, 1, "0 SYSCALL PRN 500"⟩]

/-- User-mode state with 77 stored at the protected address 500. -/
def sPrn500 : CPUState := bootState 1100 (fun a => if a = 500 then 77 else 0) true

/-- A program whose only instruction pops into user memory. -/
def progPop1005 : List Instruction := [⟨.POP, 1005, 0, 1, "0 POP 1005"⟩]

/-- User-mode state whose stack pointer 5000 is outside the 1100-cell
memory, so POP's stack read is out of range. -/
def sPopHighSP : CPUState := bootState 1100 (fun a => if a = 1 then 5000 else 0) true

/-- The two-instruction sequence PUSH 10 then POP 3: the pop target is the
ICOUNT cell. -/
def progPushPop : List Instruction :=
  [⟨.PUSH, 10, 0, 1, "0 PUSH 10"⟩, ⟨.POP, 3, 0, 1, "1 POP 3"⟩]

/-- Kernel-mode state with SP = 20 and the value 7 at address 10. -/
def sPushPop : CPUState :=
  bootState 21 (fun a => if a = 1 then 20 else if a = 10 then 7 else 0) false

/-- A program whose only instruction writes 7 into the PC cell. -/
def progSetPC : List Instruction := [⟨.SET, 7, 0, 2, "0 SET 7 0"⟩]

/-- Two concrete instructions used to exercise the parser's slot placement. -/
def instrHLT2 : Instruction := ⟨.HLT, 0, 0, 0, "2 HLT"⟩

/-- Second concrete instruction for the duplicate-index test. -/
def instrRET2 : Instruction := ⟨.RET, 0, 0, 0, "2 RET"⟩

/-- Is the execution result a normal completion? -/
def StepExec.isOk : StepExec → Bool
  | .ok _ _ _ => true
  | .fault _ _ => false

/-- Did the execution result end in an exception thrown while the CPU was
in user mode (the condition the runtime_error catch block tests)? -/
def StepExec.faultsInUserMode : StepExec → Bool
  | .fault _ st => st.userMode
  | .ok _ _ _ => false

/-- The three syscall opcodes, which all trap to the single syscall
dispatcher PC. -/
def isSyscallOpcode (op : OpCode) : Prop :=
  op = .SYSCALL_PRN ∨ op = .SYSCALL_HLT_THREAD ∨ op = .SYSCALL_YIELD

/-- An address that checkedRead/checkedWrite can access without any fault
in state s: it passes the user-mode protection test and the Memory
bounds check. -/
def accessible (s : CPUState) (a : Int) : Prop :=
  ¬(s.userMode ∧ a < USER_MEMORY_START_ADDR ∧ 0 ≤ a) ∧ 0 ≤ a ∧ a < (s.msize : Int)

/-- A program whose only instruction reads the protected-boundary address 21. -/
def progCpy21 : List Instruction := [⟨.CPY, 21, 1005, 2, "0 CPY 21 1005"⟩]

/-- A one-slot instruction table holding only a loader hole. -/
def progHole : List Instruction := [Instruction.hole]

/-- A program whose only instruction is SYSCALL HLT (thread halt). -/
def progSysHlt : List Instruction := [⟨.SYSCALL_HLT_THREAD, 0, 0, 0, "0 SYSCALL HLT"⟩]

/-- PUSH 10 then POP 12, a faultless push/pop round trip. -/
def progPushPop2 : List Instruction :=
  [⟨.PUSH, 10, 0, 1, "0 PUSH 10"⟩, ⟨.POP, 12, 0, 1, "1 POP 12"⟩]

/-- Kernel-mode 21-cell state with SP = 20 and the value 7 at address 10. -/
def sRT : CPUState :=
  bootState 21 (fun a => if a = 1 then 20 else if a = 10 then 7 else 0) false

/-- A program whose only instruction pushes from user memory; run on
sUserZero1100 (SP = 0) the decremented SP would be negative. -/
def progPush1005 : List Instruction := [⟨.PUSH, 1005, 0, 1, "0 PUSH 1005"⟩]

/-- Helper: the PC-commit phase never changes a cell other than PC_ADDR. -/
theorem commitPC_mem_ne (s : CPUState) (np : Int) (pm : Bool) (b : Int) (hb : b ≠ PC_ADDR) :
    (commitPC s np pm).mem b = s.mem b := by
  unfold commitPC
  split_ifs <;> simp [privWrite, hb]

/-- Helper: the instruction-counter increment never changes a cell other
than INSTR_COUNT_ADDR. -/
theorem incICount_mem_ne (s : CPUState) (b : Int) (hb : b ≠ INSTR_COUNT_ADDR) :
    (incICount s).mem b = s.mem b := by
  simp [incICount, privWrite, hb]

/-- C1: the claim states that in user mode exactly the addresses 21..999
are protected, so that a read at 20 succeeds while a read at 21 traps with
EVENT=4 and ARG1=21.  In the code the user-mode guard of
checkedRead/checkedWrite is `address < USER_MEMORY_START_ADDR && address >= 0`,
which also covers the register window 0..20: evaluating one step on a
user-mode state whose instruction reads address 20 shows the CPU delivers
a memory-protection trap (EVENT=4, ARG1=20, PC redirected to the
memory-fault handler) instead of letting the read succeed; a read of 21
traps in the same way (that half of the claim holds). -/
theorem user_mode_read_of_address_20_is_memory_fault :
    (step progCpy20 sUserZero1100).mem CPU_OS_COMM_ADDR = CpuEvent.MEMORY_FAULT_USER.toLong ∧
    (step progCpy20 sUserZero1100).mem SYSCALL_ARG1_PASS_ADDR = 20 ∧
    (step progCpy20 sUserZero1100).mem PC_ADDR = OS_MEMORY_FAULT_HANDLER_PC ∧
    (step progCpy20 sUserZero1100).userMode = false ∧
    (step progCpy20 sUserZero1100).halted = false ∧
    (step progCpy21 sUserZero1100).mem CPU_OS_COMM_ADDR = CpuEvent.MEMORY_FAULT_USER.toLong ∧
    (step progCpy21 sUserZero1100).mem SYSCALL_ARG1_PASS_ADDR = 21 := by
  decide

/-- C2 counterexample: a step whose instruction itself stores 100 into the
ICOUNT cell ends with ICOUNT = 101, not with its old value plus one, so
the claim's "after = before + 1" is false as a universal statement. -/
theorem step_writing_icount_cell_breaks_plus_one :
    (step progSet3 sZero21).mem INSTR_COUNT_ADDR = 101 ∧
    sZero21.mem INSTR_COUNT_ADDR = 0 ∧
    ¬((step progSet3 sZero21).mem INSTR_COUNT_ADDR =
        sZero21.mem INSTR_COUNT_ADDR + 1) := by
  decide

/-- C2 (amended): every step entered with halted = false applies exactly one
increment to ICOUNT on top of the state left by instruction execution and
trap handling (so ICOUNT ends at before + 1 whenever the instruction does
not itself write cell 3), and the minimal one-instruction HLT program ends
its first step with ICOUNT = 1 and halted = true. -/
theorem icount_incremented_once_per_step :
    (∀ (prog : List Instruction) (s : CPUState), s.halted = false →
       (step prog s).mem INSTR_COUNT_ADDR =
         (execAndHandle prog s).1.mem INSTR_COUNT_ADDR + 1) ∧
    ((step progHLT sZero21).mem INSTR_COUNT_ADDR = 1 ∧ (step progHLT sZero21).halted = true) := by
  constructor
  · intro prog s h
    simp only [step, h, Bool.false_eq_true, if_false]
    unfold commitPC
    split
    · simp [incICount, privWrite, INSTR_COUNT_ADDR]
    · split
      · simp [incICount, privWrite, INSTR_COUNT_ADDR, PC_ADDR]
      · split
        · simp [incICount, privWrite, INSTR_COUNT_ADDR]
        · simp [incICount, privWrite, INSTR_COUNT_ADDR, PC_ADDR]
  · decide

/-- C2 witness: the per-step increment applied to the minimal HLT program. -/
theorem icount_incremented_once_per_step_witness :
    (step progHLT sZero21).mem INSTR_COUNT_ADDR =
      (execAndHandle progHLT sZero21).1.mem INSTR_COUNT_ADDR + 1 :=
  icount_incremented_once_per_step.1 progHLT sZero21 rfl

/-- C3 counterexample: SYSCALL PRN 500 executed from user mode, with 500 in
the protected region 21..999, does not trap as a memory fault: it prints
mem[500] and delivers the ordinary PRN trap with EVENT=1, because the CPU
switches to kernel mode before reading the argument. -/
theorem syscall_prn_protected_address_prints_with_event_one :
    (step progPrn500 sPrn500).output = [77] ∧
    (step progPrn500 sPrn500).mem CPU_OS_COMM_ADDR = CpuEvent.SYSCALL_PRN.toLong ∧
    ¬((step progPrn500 sPrn500).mem CPU_OS_COMM_ADDR = CpuEvent.MEMORY_FAULT_USER.toLong) := by
  decide

/-- C3 (amended): SYSCALL PRN A clears user mode first and only then reads
mem[A] through checkedRead, so the read bypasses the user-mode protection:
for every in-bounds A (including the protected region 21..999) the step
emits mem[A] through the print callback and afterwards delivers the trap
with EVENT=1, ARG1=A, SAVED_PC = PC+1 and PC = the syscall dispatcher. -/
theorem syscall_prn_kernel_read_print_then_trap (prog : List Instruction) (s : CPUState)
    (A x : Int) (ln : String)
    (hh : s.halted = false)
    (hf : fetchInstr prog (s.mem PC_ADDR) = ⟨.SYSCALL_PRN, A, x, 1, ln⟩)
    (hp0 : 0 ≤ s.mem PC_ADDR) (hp1 : s.mem PC_ADDR < (prog.length : Int))
    (hA0 : 0 ≤ A) (hA1 : A < (s.msize : Int)) :
    (step prog s).output = s.output ++ [s.mem A] ∧
    (step prog s).mem CPU_OS_COMM_ADDR = CpuEvent.SYSCALL_PRN.toLong ∧
    (step prog s).mem SYSCALL_ARG1_PASS_ADDR = A ∧
    (step prog s).mem SAVED_TRAP_PC_ADDR = s.mem PC_ADDR + 1 ∧
    (step prog s).mem PC_ADDR = OS_SYSCALL_DISPATCHER_PC ∧
    (step prog s).userMode = false ∧
    (step prog s).halted = false := by
  have hg : ¬(s.mem PC_ADDR < 0 ∨ (prog.length : Int) ≤ s.mem PC_ADDR) := by omega
  have hmA : (0 ≤ A ∧ A < (s.msize : Int)) := ⟨hA0, hA1⟩
  simp [step, hh, execAndHandle, execPhase, hg, hf, execOp, readThen, checkedRead, memRead, hmA]
  simp [incICount, commitPC, privWrite, CpuEvent.toLong,
        PC_ADDR, CPU_OS_COMM_ADDR, INSTR_COUNT_ADDR, SAVED_TRAP_PC_ADDR,
        SYSCALL_ARG1_PASS_ADDR, OS_SYSCALL_DISPATCHER_PC]

/-- C3 witness: the amended behaviour at the concrete protected argument 500. -/
theorem syscall_prn_kernel_read_print_then_trap_witness :
    (step progPrn500 sPrn500).mem SAVED_TRAP_PC_ADDR = sPrn500.mem PC_ADDR + 1 ∧
    (step progPrn500 sPrn500).mem PC_ADDR = OS_SYSCALL_DISPATCHER_PC :=
  ⟨(syscall_prn_kernel_read_print_then_trap progPrn500 sPrn500 500 0 "0 SYSCALL PRN 500"
      rfl rfl (by decide) (by decide) (by decide) (by decide)).2.2.2.1,
   (syscall_prn_kernel_read_print_then_trap progPrn500 sPrn500 500 0 "0 SYSCALL PRN 500"
      rfl rfl (by decide) (by decide) (by decide) (by decide)).2.2.2.2.1⟩

/-- C4: on every trap the CPU writes SAVED_PC (cell 4) with the faulting PC
itself when the trap comes from an exception raised in user mode (memory
protection, stack, PC-out-of-bounds or other runtime faults), with the
faulting PC for a genuinely unknown opcode hit in user mode, and with
PC+1 (return-address semantics) for each of the three syscalls. -/
theorem saved_pc_trap_protocol (prog : List Instruction) (s : CPUState)
    (hh : s.halted = false) :
    ((execPhase prog { s with pcModifiedByData := false } (s.mem PC_ADDR)).faultsInUserMode = true →
        (step prog s).mem SAVED_TRAP_PC_ADDR = s.mem PC_ADDR) ∧
    (∀ a b ln, fetchInstr prog (s.mem PC_ADDR) = ⟨.SYSCALL_HLT_THREAD, a, b, 0, ln⟩ →
        0 ≤ s.mem PC_ADDR → s.mem PC_ADDR < (prog.length : Int) →
        (step prog s).mem SAVED_TRAP_PC_ADDR = s.mem PC_ADDR + 1) ∧
    (∀ a b ln, fetchInstr prog (s.mem PC_ADDR) = ⟨.SYSCALL_YIELD, a, b, 0, ln⟩ →
        0 ≤ s.mem PC_ADDR → s.mem PC_ADDR < (prog.length : Int) →
        (step prog s).mem SAVED_TRAP_PC_ADDR = s.mem PC_ADDR + 1) ∧
    (∀ A x ln, fetchInstr prog (s.mem PC_ADDR) = ⟨.SYSCALL_PRN, A, x, 1, ln⟩ →
        0 ≤ s.mem PC_ADDR → s.mem PC_ADDR < (prog.length : Int) →
        0 ≤ A → A < (s.msize : Int) →
        (step prog s).mem SAVED_TRAP_PC_ADDR = s.mem PC_ADDR + 1) ∧
    ((fetchInstr prog (s.mem PC_ADDR)).opcode = .UNKNOWN →
        (fetchInstr prog (s.mem PC_ADDR)).original_line ≠ "" →
        s.userMode = true → 0 ≤ s.mem PC_ADDR → s.mem PC_ADDR < (prog.length : Int) →
        (step prog s).mem SAVED_TRAP_PC_ADDR = s.mem PC_ADDR) := by
  refine ⟨?_, ?_, ?_, ?_, ?_⟩
  · intro h1
    cases hr : execPhase prog { s with pcModifiedByData := false } (s.mem PC_ADDR) with
    | ok st np pm => rw [hr] at h1; simp [StepExec.faultsInUserMode] at h1
    | fault f st =>
        rw [hr] at h1
        simp [StepExec.faultsInUserMode] at h1
        have hnh : ¬(s.halted = true) := by simp [hh]
        simp only [step, execAndHandle]
        rw [if_neg hnh, hr]
        cases f <;>
          simp [handleFault, h1, commitPC_mem_ne, incICount_mem_ne, privWrite,
                SAVED_TRAP_PC_ADDR, CPU_OS_COMM_ADDR, SYSCALL_ARG1_PASS_ADDR,
                PC_ADDR, INSTR_COUNT_ADDR]
  · intro a b ln hf hp0 hp1
    have hg : ¬(s.mem PC_ADDR < 0 ∨ (prog.length : Int) ≤ s.mem PC_ADDR) := by omega
    simp [step, hh, execAndHandle, execPhase, hg, hf, execOp]
    simp [incICount, commitPC, privWrite,
          PC_ADDR, CPU_OS_COMM_ADDR, INSTR_COUNT_ADDR, SAVED_TRAP_PC_ADDR]
  · intro a b ln hf hp0 hp1
    have hg : ¬(s.mem PC_ADDR < 0 ∨ (prog.length : Int) ≤ s.mem PC_ADDR) := by omega
    simp [step, hh, execAndHandle, execPhase, hg, hf, execOp]
    simp [incICount, commitPC, privWrite,
          PC_ADDR, CPU_OS_COMM_ADDR, INSTR_COUNT_ADDR, SAVED_TRAP_PC_ADDR]
  · intro A x ln hf hp0 hp1 hA0 hA1
    have hg : ¬(s.mem PC_ADDR < 0 ∨ (prog.length : Int) ≤ s.mem PC_ADDR) := by omega
    have hmA : (0 ≤ A ∧ A < (s.msize : Int)) := ⟨hA0, hA1⟩
    simp [step, hh, execAndHandle, execPhase, hg, hf, execOp, readThen, checkedRead, memRead, hmA]
    simp [incICount, commitPC, privWrite,
          PC_ADDR, CPU_OS_COMM_ADDR, INSTR_COUNT_ADDR, SAVED_TRAP_PC_ADDR, SYSCALL_ARG1_PASS_ADDR]
  · intro hop hline husr hp0 hp1
    have hg : ¬(s.mem PC_ADDR < 0 ∨ (prog.length : Int) ≤ s.mem PC_ADDR) := by omega
    simp [step, hh, execAndHandle, execPhase, hg, hop, hline, execOp, husr]
    simp [incICount, commitPC, privWrite,
          PC_ADDR, CPU_OS_COMM_ADDR, INSTR_COUNT_ADDR, SAVED_TRAP_PC_ADDR]

/-- C4 witness: SAVED_PC = PC + 1 for the concrete SYSCALL PRN step. -/
theorem saved_pc_trap_protocol_witness :
    (step progPrn500 sPrn500).mem SAVED_TRAP_PC_ADDR = sPrn500.mem PC_ADDR + 1 :=
  (saved_pc_trap_protocol progPrn500 sPrn500 rfl).2.2.2.1 500 0 "0 SYSCALL PRN 500"
    rfl (by decide) (by decide) (by decide) (by decide)

/-- C5: an instruction that stores v into the PC cell as its data operand
(SET v 0 in kernel mode) leaves the PC cell holding v at the end of the
step: the pc_modified_by_data_operation_ flag suppresses the default PC+1
commit, so the next fetch will use v. -/
theorem data_write_to_pc_cell_wins (prog : List Instruction) (s : CPUState)
    (v : Int) (ln : String)
    (hh : s.halted = false) (hu : s.userMode = false)
    (hf : fetchInstr prog (s.mem PC_ADDR) = ⟨.SET, v, PC_ADDR, 2, ln⟩)
    (hp0 : 0 ≤ s.mem PC_ADDR) (hp1 : s.mem PC_ADDR < (prog.length : Int))
    (hm : 0 < s.msize) :
    (step prog s).mem PC_ADDR = v ∧ (step prog s).halted = false := by
  have hg : ¬(s.mem PC_ADDR < 0 ∨ (prog.length : Int) ≤ s.mem PC_ADDR) := by omega
  have hm2 : ((0 : Int) ≤ PC_ADDR ∧ PC_ADDR < (s.msize : Int)) := by
    constructor
    · simp [PC_ADDR]
    · simp [PC_ADDR]; omega
  simp [step, hh, execAndHandle, execPhase, hg, hf, execOp, writeThen, checkedWrite, memWrite,
        hu, hm2]
  simp [incICount, commitPC, privWrite, PC_ADDR, INSTR_COUNT_ADDR]

/-- C5 witness: SET 7 0 leaves the PC cell holding 7. -/
theorem data_write_to_pc_cell_wins_witness :
    (step progSetPC sZero21).mem PC_ADDR = 7 :=
  (data_write_to_pc_cell_wins progSetPC sZero21 7 "0 SET 7 0"
    rfl rfl rfl (by decide) (by decide) (by decide)).1

/-- C6: a table slot left by the loader as the default hole (UNKNOWN opcode,
empty source text) is treated as an implicit HLT: the CPU halts, the PC
cell stays at that slot and no event is written; a genuinely unknown
opcode (non-empty source text) hit in user mode instead takes the
unknown-instruction fault path: the CPU stays running, writes EVENT=5 and
redirects PC to the unknown-instruction handler. -/
theorem hole_slot_implicit_hlt_vs_unknown_fault (prog : List Instruction) (s : CPUState)
    (hh : s.halted = false)
    (hp0 : 0 ≤ s.mem PC_ADDR) (hp1 : s.mem PC_ADDR < (prog.length : Int)) :
    ((fetchInstr prog (s.mem PC_ADDR)).opcode = .UNKNOWN →
       (fetchInstr prog (s.mem PC_ADDR)).original_line = "" →
       (step prog s).halted = true ∧
       (step prog s).mem PC_ADDR = s.mem PC_ADDR ∧
       (step prog s).mem CPU_OS_COMM_ADDR = s.mem CPU_OS_COMM_ADDR) ∧
    ((fetchInstr prog (s.mem PC_ADDR)).opcode = .UNKNOWN →
       (fetchInstr prog (s.mem PC_ADDR)).original_line ≠ "" →
       s.userMode = true →
       (step prog s).halted = false ∧
       (step prog s).mem CPU_OS_COMM_ADDR = CpuEvent.UNKNOWN_INSTRUCTION_FAULT.toLong ∧
       (step prog s).mem PC_ADDR = OS_UNKNOWN_INSTRUCTION_HANDLER_PC) := by
  have hg : ¬(s.mem PC_ADDR < 0 ∨ (prog.length : Int) ≤ s.mem PC_ADDR) := by omega
  constructor
  · intro hop hline
    simp [step, hh, execAndHandle, execPhase, hg, hop, hline]
    simp [incICount, commitPC, privWrite, PC_ADDR, INSTR_COUNT_ADDR, CPU_OS_COMM_ADDR]
  · intro hop hline husr
    simp [step, hh, execAndHandle, execPhase, hg, hop, hline, execOp, husr]
    simp [incICount, commitPC, privWrite, CpuEvent.toLong, PC_ADDR, INSTR_COUNT_ADDR,
          CPU_OS_COMM_ADDR, SAVED_TRAP_PC_ADDR, OS_UNKNOWN_INSTRUCTION_HANDLER_PC,
          OS_MEMORY_FAULT_HANDLER_PC]

/-- C6 witness: stepping onto the concrete hole slot halts with PC kept at 0. -/
theorem hole_slot_implicit_hlt_vs_unknown_fault_witness :
    (step progHole sZero21).halted = true ∧
    (step progHole sZero21).mem PC_ADDR = sZero21.mem PC_ADDR :=
  ⟨((hole_slot_implicit_hlt_vs_unknown_fault progHole sZero21 rfl (by decide) (by decide)).1
      rfl rfl).1,
   ((hole_slot_implicit_hlt_vs_unknown_fault progHole sZero21 rfl (by decide) (by decide)).1
      rfl rfl).2.1⟩

/-- C7 counterexample: a user-mode POP whose SP (5000) is outside memory is
not classified as a stack-underflow/memory fault: the out-of-range read
surfaces as a generic runtime error, which the catch block classifies as
EVENT=6 (arithmetic fault) with PC sent to the arithmetic-fault handler,
not EVENT=4. -/
theorem pop_with_out_of_range_sp_is_event_six :
    (step progPop1005 sPopHighSP).mem CPU_OS_COMM_ADDR = CpuEvent.ARITHMETIC_FAULT.toLong ∧
    (step progPop1005 sPopHighSP).mem PC_ADDR = OS_ARITHMETIC_FAULT_HANDLER_PC ∧
    ¬((step progPop1005 sPopHighSP).mem CPU_OS_COMM_ADDR = CpuEvent.MEMORY_FAULT_USER.toLong) := by
  decide

/-- C7 (amended): a PUSH or CALL whose decremented SP would become negative
raises a "Stack overflow" error, which in user mode is classified as a
memory fault (EVENT=4, PC sent to the memory-fault handler); a POP or RET
whose SP is an out-of-range memory index raises a generic out-of-range
error instead of a stack-underflow one, which in user mode is classified
as an arithmetic fault (EVENT=6, PC sent to the arithmetic-fault handler). -/
theorem stack_fault_classification (prog : List Instruction) (s : CPUState)
    (hh : s.halted = false) (husr : s.userMode = true) :
    (∀ A x ln, fetchInstr prog (s.mem PC_ADDR) = ⟨.PUSH, A, x, 1, ln⟩ →
       0 ≤ s.mem PC_ADDR → s.mem PC_ADDR < (prog.length : Int) →
       s.mem SP_ADDR - 1 < 0 →
       (step prog s).mem CPU_OS_COMM_ADDR = CpuEvent.MEMORY_FAULT_USER.toLong ∧
       (step prog s).mem PC_ADDR = OS_MEMORY_FAULT_HANDLER_PC ∧
       (step prog s).halted = false) ∧
    (∀ C x ln, fetchInstr prog (s.mem PC_ADDR) = ⟨.CALL, C, x, 1, ln⟩ →
       0 ≤ s.mem PC_ADDR → s.mem PC_ADDR < (prog.length : Int) →
       s.mem SP_ADDR - 1 < 0 →
       (step prog s).mem CPU_OS_COMM_ADDR = CpuEvent.MEMORY_FAULT_USER.toLong ∧
       (step prog s).mem PC_ADDR = OS_MEMORY_FAULT_HANDLER_PC ∧
       (step prog s).halted = false) ∧
    (∀ B x ln, fetchInstr prog (s.mem PC_ADDR) = ⟨.POP, B, x, 1, ln⟩ →
       0 ≤ s.mem PC_ADDR → s.mem PC_ADDR < (prog.length : Int) →
       (s.msize : Int) ≤ s.mem SP_ADDR → USER_MEMORY_START_ADDR ≤ s.mem SP_ADDR →
       (step prog s).mem CPU_OS_COMM_ADDR = CpuEvent.ARITHMETIC_FAULT.toLong ∧
       (step prog s).mem PC_ADDR = OS_ARITHMETIC_FAULT_HANDLER_PC ∧
       (step prog s).halted = false) ∧
    (∀ a b ln, fetchInstr prog (s.mem PC_ADDR) = ⟨.RET, a, b, 0, ln⟩ →
       0 ≤ s.mem PC_ADDR → s.mem PC_ADDR < (prog.length : Int) →
       (s.msize : Int) ≤ s.mem SP_ADDR → USER_MEMORY_START_ADDR ≤ s.mem SP_ADDR →
       (step prog s).mem CPU_OS_COMM_ADDR = CpuEvent.ARITHMETIC_FAULT.toLong ∧
       (step prog s).mem PC_ADDR = OS_ARITHMETIC_FAULT_HANDLER_PC ∧
       (step prog s).halted = false) := by
  refine ⟨?_, ?_, ?_, ?_⟩
  · intro A x ln hf hp0 hp1 hsp
    have hg : ¬(s.mem PC_ADDR < 0 ∨ (prog.length : Int) ≤ s.mem PC_ADDR) := by omega
    simp [step, hh, execAndHandle, execPhase, hg, hf, execOp, hsp, handleFault, husr]
    simp [incICount, commitPC, privWrite, CpuEvent.toLong, PC_ADDR, INSTR_COUNT_ADDR,
          CPU_OS_COMM_ADDR, SAVED_TRAP_PC_ADDR, OS_MEMORY_FAULT_HANDLER_PC]
  · intro C x ln hf hp0 hp1 hsp
    have hg : ¬(s.mem PC_ADDR < 0 ∨ (prog.length : Int) ≤ s.mem PC_ADDR) := by omega
    simp [step, hh, execAndHandle, execPhase, hg, hf, execOp, hsp, handleFault, husr]
    simp [incICount, commitPC, privWrite, CpuEvent.toLong, PC_ADDR, INSTR_COUNT_ADDR,
          CPU_OS_COMM_ADDR, SAVED_TRAP_PC_ADDR, OS_MEMORY_FAULT_HANDLER_PC]
  · intro B x ln hf hp0 hp1 hsp hsp2
    have hg : ¬(s.mem PC_ADDR < 0 ∨ (prog.length : Int) ≤ s.mem PC_ADDR) := by omega
    have hguard : ¬(s.mem SP_ADDR < USER_MEMORY_START_ADDR ∧ 0 ≤ s.mem SP_ADDR) := by omega
    have hoob : ¬(0 ≤ s.mem SP_ADDR ∧ s.mem SP_ADDR < (s.msize : Int)) := by omega
    simp [step, hh, execAndHandle, execPhase, hg, hf, execOp, readThen, checkedRead, memRead,
          hguard, hoob, handleFault, husr]
    simp [incICount, commitPC, privWrite, CpuEvent.toLong, PC_ADDR, INSTR_COUNT_ADDR,
          CPU_OS_COMM_ADDR, SAVED_TRAP_PC_ADDR, OS_ARITHMETIC_FAULT_HANDLER_PC]
  · intro a b ln hf hp0 hp1 hsp hsp2
    have hg : ¬(s.mem PC_ADDR < 0 ∨ (prog.length : Int) ≤ s.mem PC_ADDR) := by omega
    have hguard : ¬(s.mem SP_ADDR < USER_MEMORY_START_ADDR ∧ 0 ≤ s.mem SP_ADDR) := by omega
    have hoob : ¬(0 ≤ s.mem SP_ADDR ∧ s.mem SP_ADDR < (s.msize : Int)) := by omega
    simp [step, hh, execAndHandle, execPhase, hg, hf, execOp, readThen, checkedRead, memRead,
          hguard, hoob, handleFault, husr]
    simp [incICount, commitPC, privWrite, CpuEvent.toLong, PC_ADDR, INSTR_COUNT_ADDR,
          CPU_OS_COMM_ADDR, SAVED_TRAP_PC_ADDR, OS_ARITHMETIC_FAULT_HANDLER_PC]

/-- C7 witness: a user-mode PUSH with SP = 0 overflows and is classified as
a memory fault (EVENT=4), PC sent to the memory-fault handler. -/
theorem stack_fault_classification_witness :
    (step progPush1005 sUserZero1100).mem CPU_OS_COMM_ADDR = CpuEvent.MEMORY_FAULT_USER.toLong ∧
    (step progPush1005 sUserZero1100).mem PC_ADDR = OS_MEMORY_FAULT_HANDLER_PC :=
  ⟨((stack_fault_classification progPush1005 sUserZero1100 rfl rfl).1 1005 0 "0 PUSH 1005"
      rfl (by decide) (by decide) (by decide)).1,
   ((stack_fault_classification progPush1005 sUserZero1100 rfl rfl).1 1005 0 "0 PUSH 1005"
      rfl (by decide) (by decide) (by decide)).2.1⟩

/-- C8 counterexample: the three fault handler PC constants are not
pairwise distinct: src/common.h defines the unknown-instruction handler
PC to be the memory-fault handler PC (both 60). -/
theorem unknown_and_memory_fault_handlers_coincide :
    OS_UNKNOWN_INSTRUCTION_HANDLER_PC = OS_MEMORY_FAULT_HANDLER_PC ∧
    OS_UNKNOWN_INSTRUCTION_HANDLER_PC = 60 ∧
    OS_MEMORY_FAULT_HANDLER_PC = 60 ∧
    ¬(OS_UNKNOWN_INSTRUCTION_HANDLER_PC ≠ OS_MEMORY_FAULT_HANDLER_PC) := by
  decide

/-- C8 (amended): all syscall traps dispatch to the single syscall
dispatcher PC (50), which is distinct from every fault handler PC; the
memory-fault and arithmetic-fault handlers have their own distinct PCs
(60 and 70), but the unknown-instruction handler PC is defined equal to
the memory-fault handler PC, so the three fault handler constants are not
pairwise distinct. -/
theorem handler_pc_dispatch_layout (prog : List Instruction) (s : CPUState)
    (hh : s.halted = false) :
    OS_SYSCALL_DISPATCHER_PC = 50 ∧
    OS_MEMORY_FAULT_HANDLER_PC = 60 ∧
    OS_UNKNOWN_INSTRUCTION_HANDLER_PC = OS_MEMORY_FAULT_HANDLER_PC ∧
    OS_ARITHMETIC_FAULT_HANDLER_PC = 70 ∧
    OS_SYSCALL_DISPATCHER_PC ≠ OS_MEMORY_FAULT_HANDLER_PC ∧
    OS_SYSCALL_DISPATCHER_PC ≠ OS_ARITHMETIC_FAULT_HANDLER_PC ∧
    OS_MEMORY_FAULT_HANDLER_PC ≠ OS_ARITHMETIC_FAULT_HANDLER_PC ∧
    (∀ a b ln, fetchInstr prog (s.mem PC_ADDR) = ⟨.SYSCALL_HLT_THREAD, a, b, 0, ln⟩ →
       0 ≤ s.mem PC_ADDR → s.mem PC_ADDR < (prog.length : Int) →
       (step prog s).mem PC_ADDR = OS_SYSCALL_DISPATCHER_PC) ∧
    (∀ a b ln, fetchInstr prog (s.mem PC_ADDR) = ⟨.SYSCALL_YIELD, a, b, 0, ln⟩ →
       0 ≤ s.mem PC_ADDR → s.mem PC_ADDR < (prog.length : Int) →
       (step prog s).mem PC_ADDR = OS_SYSCALL_DISPATCHER_PC) := by
  refine ⟨by decide, by decide, by decide, by decide, by decide, by decide, by decide, ?_, ?_⟩
  · intro a b ln hf hp0 hp1
    have hg : ¬(s.mem PC_ADDR < 0 ∨ (prog.length : Int) ≤ s.mem PC_ADDR) := by omega
    simp [step, hh, execAndHandle, execPhase, hg, hf, execOp]
    simp [incICount, commitPC, privWrite, PC_ADDR, INSTR_COUNT_ADDR,
          OS_SYSCALL_DISPATCHER_PC]
  · intro a b ln hf hp0 hp1
    have hg : ¬(s.mem PC_ADDR < 0 ∨ (prog.length : Int) ≤ s.mem PC_ADDR) := by omega
    simp [step, hh, execAndHandle, execPhase, hg, hf, execOp]
    simp [incICount, commitPC, privWrite, PC_ADDR, INSTR_COUNT_ADDR,
          OS_SYSCALL_DISPATCHER_PC]

/-- C8 witness: SYSCALL HLT sends PC to the single syscall dispatcher. -/
theorem handler_pc_dispatch_layout_witness :
    (step progSysHlt sZero21).mem PC_ADDR = OS_SYSCALL_DISPATCHER_PC :=
  (handler_pc_dispatch_layout progSysHlt sZero21 rfl).2.2.2.2.2.2.2.1
    0 0 "0 SYSCALL HLT" rfl (by decide) (by decide)

/-- C9 counterexample: PUSH 10 then POP 3 runs without any fault, with A=10
and B=3 legal accessible addresses distinct from the PC and SP cells, yet
mem[3] ends at 8, not at the original mem[10] = 7: the step's own ICOUNT
increment lands on top of the popped value because B is the ICOUNT cell. -/
theorem push_pop_to_icount_cell_breaks_roundtrip :
    (step progPushPop (step progPushPop sPushPop)).mem 3 = 8 ∧
    sPushPop.mem 10 = 7 ∧
    (step progPushPop (step progPushPop sPushPop)).mem SP_ADDR = sPushPop.mem SP_ADDR ∧
    ¬((step progPushPop (step progPushPop sPushPop)).mem 3 = sPushPop.mem 10) := by
  decide

/-- Helper for C9: full characterisation of a faultless PUSH step in terms
of the cells it writes (stack pointer, stack slot, instruction counter and
PC), with all addresses given numerically. -/
theorem stepPUSH_facts (prog : List Instruction) (s : CPUState) (A xa : Int) (lnA : String)
    (hh : s.halted = false)
    (hf : fetchInstr prog (s.mem 0) = ⟨.PUSH, A, xa, 1, lnA⟩)
    (hp0 : 0 ≤ s.mem 0) (hp1 : s.mem 0 < (prog.length : Int))
    (hAg : ¬(s.userMode = true ∧ A < 1000 ∧ 0 ≤ A))
    (hAb : 0 ≤ A ∧ A < (s.msize : Int))
    (hSg : ¬(s.userMode = true ∧ s.mem 1 - 1 < 1000 ∧ 0 ≤ s.mem 1 - 1))
    (hSb : 0 ≤ s.mem 1 - 1 ∧ s.mem 1 - 1 < (s.msize : Int))
    (hA1 : ¬(A = 1))
    (hS0 : ¬(s.mem 1 - 1 = 0)) (hS1 : ¬(s.mem 1 - 1 = 1)) (hS3 : ¬(s.mem 1 - 1 = 3)) :
    (step prog s).mem 0 = s.mem 0 + 1 ∧
    (step prog s).mem 1 = s.mem 1 - 1 ∧
    (step prog s).mem (s.mem 1 - 1) = s.mem A ∧
    (step prog s).halted = false ∧
    (step prog s).userMode = s.userMode ∧
    (step prog s).msize = s.msize := by
  have hg : ¬(s.mem 0 < 0 ∨ (prog.length : Int) ≤ s.mem 0) := by omega
  have hso : ¬(s.mem 1 - 1 < 0) := by omega
  have hS1r : ¬((1 : Int) = s.mem 1 - 1) := by omega
  simp only [step, execAndHandle, execPhase, execOp, PC_ADDR, SP_ADDR, USER_MEMORY_START_ADDR]
  cases hu : s.userMode with
  | false =>
      simp [hh, hg, hf, readThen, writeThen, checkedRead, checkedWrite, memRead, memWrite,
            privWrite, hu, hAb, hSb, hso, hA1, hS0, hS1, hS1r, hS3, PC_ADDR,
            USER_MEMORY_START_ADDR]
      simp [incICount, commitPC, privWrite, INSTR_COUNT_ADDR, PC_ADDR, hS0, hS1, hS3, hS1r]
  | true =>
      have hAn : ¬(A < 1000) := fun hl => hAg ⟨hu, hl, hAb.1⟩
      have hSn : ¬(s.mem 1 - 1 < 1000) := fun hl => hSg ⟨hu, hl, hSb.1⟩
      simp [hh, hg, hf, readThen, writeThen, checkedRead, checkedWrite, memRead, memWrite,
            privWrite, hu, hAn, hSn, hAb, hSb, hso, hA1, hS0, hS1, hS1r, hS3, PC_ADDR,
            USER_MEMORY_START_ADDR]
      simp [incICount, commitPC, privWrite, INSTR_COUNT_ADDR, PC_ADDR, hS0, hS1, hS3, hS1r]

/-- Helper for C9: a faultless POP step stores the old top of stack into B
and increments the stack pointer cell. -/
theorem stepPOP_facts (prog : List Instruction) (s : CPUState) (B xb : Int) (lnB : String)
    (hh : s.halted = false)
    (hf : fetchInstr prog (s.mem 0) = ⟨.POP, B, xb, 1, lnB⟩)
    (hp0 : 0 ≤ s.mem 0) (hp1 : s.mem 0 < (prog.length : Int))
    (hSg : ¬(s.userMode = true ∧ s.mem 1 < 1000 ∧ 0 ≤ s.mem 1))
    (hSb : 0 ≤ s.mem 1 ∧ s.mem 1 < (s.msize : Int))
    (hBg : ¬(s.userMode = true ∧ B < 1000 ∧ 0 ≤ B))
    (hBb : 0 ≤ B ∧ B < (s.msize : Int))
    (hB0 : ¬(B = 0)) (hB1 : ¬(B = 1)) (hB3 : ¬(B = 3)) :
    (step prog s).mem B = s.mem (s.mem 1) ∧
    (step prog s).mem 1 = s.mem 1 + 1 := by
  have hg : ¬(s.mem 0 < 0 ∨ (prog.length : Int) ≤ s.mem 0) := by omega
  have hB1r : ¬((1 : Int) = B) := by omega
  simp only [step, execAndHandle, execPhase, execOp, PC_ADDR, SP_ADDR]
  cases hu : s.userMode with
  | false =>
      simp [hh, hg, hf, readThen, writeThen, checkedRead, checkedWrite, memRead, memWrite,
            privWrite, hu, hSb, hBb, hB0, hB1, hB1r, hB3, PC_ADDR, USER_MEMORY_START_ADDR]
      simp [incICount, commitPC, privWrite, INSTR_COUNT_ADDR, PC_ADDR, hB0, hB1, hB3, hB1r]
  | true =>
      have hSn : ¬(s.mem 1 < 1000) := fun hl => hSg ⟨hu, hl, hSb.1⟩
      have hBn : ¬(B < 1000) := fun hl => hBg ⟨hu, hl, hBb.1⟩
      simp [hh, hg, hf, readThen, writeThen, checkedRead, checkedWrite, memRead, memWrite,
            privWrite, hu, hSn, hBn, hSb, hBb, hB0, hB1, hB1r, hB3, PC_ADDR,
            USER_MEMORY_START_ADDR]
      simp [incICount, commitPC, privWrite, INSTR_COUNT_ADDR, PC_ADDR, hB0, hB1, hB3, hB1r]

/-- C9 (amended): for every non-halted state in which PUSH A at pc is
followed by POP B at pc+1, all three touched addresses (A, B and the
stack slot SP-1) are legal and accessible, and A, B and the stack slot
are distinct from the PC and SP cells and — beyond the claim as written —
B and the stack slot are also distinct from the ICOUNT cell, the
two-step sequence leaves mem[B] equal to the original mem[A] and SP equal
to its original value. -/
theorem push_pop_roundtrip (prog : List Instruction) (s : CPUState)
    (A B xa xb : Int) (lnA lnB : String)
    (hh : s.halted = false)
    (hfP : fetchInstr prog (s.mem PC_ADDR) = ⟨.PUSH, A, xa, 1, lnA⟩)
    (hfQ : fetchInstr prog (s.mem PC_ADDR + 1) = ⟨.POP, B, xb, 1, lnB⟩)
    (hp0 : 0 ≤ s.mem PC_ADDR) (hp1 : s.mem PC_ADDR + 1 < (prog.length : Int))
    (haccA : accessible s A) (haccB : accessible s B)
    (haccS : accessible s (s.mem SP_ADDR - 1))
    (hA0 : A ≠ PC_ADDR) (hA1 : A ≠ SP_ADDR)
    (hB0 : B ≠ PC_ADDR) (hB1 : B ≠ SP_ADDR) (hB3 : B ≠ INSTR_COUNT_ADDR)
    (hS0 : s.mem SP_ADDR - 1 ≠ PC_ADDR) (hS1 : s.mem SP_ADDR - 1 ≠ SP_ADDR)
    (hS3 : s.mem SP_ADDR - 1 ≠ INSTR_COUNT_ADDR) :
    (step prog (step prog s)).mem B = s.mem A ∧
    (step prog (step prog s)).mem SP_ADDR = s.mem SP_ADDR := by
  simp only [PC_ADDR, SP_ADDR, INSTR_COUNT_ADDR, USER_MEMORY_START_ADDR,
             accessible] at hfP hfQ hp0 hp1 haccA haccB haccS hA0 hA1 hB0 hB1 hB3 hS0 hS1 hS3 ⊢
  obtain ⟨f1, f2, f3, f4, f5, f6⟩ :=
    stepPUSH_facts prog s A xa lnA hh hfP hp0 (by omega) haccA.1 haccA.2 haccS.1 haccS.2
      hA1 hS0 hS1 hS3
  have hfQ1 : fetchInstr prog ((step prog s).mem 0) = ⟨.POP, B, xb, 1, lnB⟩ := by
    rw [f1]; exact hfQ
  have hSg1 : ¬((step prog s).userMode = true ∧ (step prog s).mem 1 < 1000 ∧
      0 ≤ (step prog s).mem 1) := by
    rw [f2, f5]; exact haccS.1
  have hSb1 : 0 ≤ (step prog s).mem 1 ∧ (step prog s).mem 1 < ((step prog s).msize : Int) := by
    rw [f2, f6]; exact haccS.2
  have hBg1 : ¬((step prog s).userMode = true ∧ B < 1000 ∧ 0 ≤ B) := by
    rw [f5]; exact haccB.1
  have hBb1 : 0 ≤ B ∧ B < ((step prog s).msize : Int) := by
    rw [f6]; exact haccB.2
  obtain ⟨g1, g2⟩ :=
    stepPOP_facts prog (step prog s) B xb lnB f4 hfQ1 (by rw [f1]; omega) (by rw [f1]; omega)
      hSg1 hSb1 hBg1 hBb1 hB0 hB1 hB3
  constructor
  · rw [g1, f2, f3]
  · rw [g2, f2]; omega

/-- C9 witness: PUSH 10 then POP 12 from SP = 20 in kernel mode copies
mem[10] into mem[12] and restores SP. -/
theorem push_pop_roundtrip_witness :
    (step progPushPop2 (step progPushPop2 sRT)).mem 12 = sRT.mem 10 ∧
    (step progPushPop2 (step progPushPop2 sRT)).mem SP_ADDR = sRT.mem SP_ADDR :=
  push_pop_roundtrip progPushPop2 sRT 10 12 0 0 "0 PUSH 10" "1 POP 12"
    rfl (by decide) (by decide) (by decide) (by decide)
    ⟨by decide, by decide, by decide⟩ ⟨by decide, by decide, by decide⟩
    ⟨by decide, by decide, by decide⟩
    (by decide) (by decide) (by decide) (by decide) (by decide)
    (by decide) (by decide) (by decide)

/-- C10: parseInstructionSection places each parsed line at the slot named
by its leading index, growing the table with default hole slots for any
skipped indices; two lines with the same nonnegative index both succeed
and the later one silently overwrites the earlier one at that slot, while
a negative index is rejected as a parse error. -/
theorem parse_slot_placement_overwrite_and_negative :
    (∀ (tbl : List Instruction) (idx : Int) (a b : Instruction), 0 ≤ idx →
       ∃ t, placeInstructions [(idx, a), (idx, b)] tbl = .ok t ∧
            t.getD idx.toNat Instruction.hole = b ∧
            ∀ j, tbl.length ≤ j → j < idx.toNat → t.getD j Instruction.hole = Instruction.hole) ∧
    (∀ (tbl : List Instruction) (idx : Int) (a : Instruction) (rest : List (Int × Instruction)),
       idx < 0 →
       placeInstructions ((idx, a) :: rest) tbl = .error "Instruction PC cannot be negative.") := by
  constructor
  · intro tbl idx a b hidx
    have hneg : ¬ idx < 0 := by omega
    by_cases hlen : tbl.length ≤ idx.toNat
    · refine ⟨((tbl ++ List.replicate (idx.toNat + 1 - tbl.length) Instruction.hole).set
          idx.toNat a).set idx.toNat b, ?_, ?_, ?_⟩
      · have e1 : placeInstruction tbl idx a =
            .ok ((tbl ++ List.replicate (idx.toNat + 1 - tbl.length) Instruction.hole).set
              idx.toNat a) := by
          simp only [placeInstruction]
          rw [if_neg hneg, if_pos hlen]
        have e2 : placeInstruction
            ((tbl ++ List.replicate (idx.toNat + 1 - tbl.length) Instruction.hole).set
              idx.toNat a) idx b =
            .ok (((tbl ++ List.replicate (idx.toNat + 1 - tbl.length) Instruction.hole).set
              idx.toNat a).set idx.toNat b) := by
          simp only [placeInstruction]
          rw [if_neg hneg, if_neg (by simp; omega)]
        simp only [placeInstructions, e1, e2]
      · have hlt : idx.toNat <
            ((tbl ++ List.replicate (idx.toNat + 1 - tbl.length) Instruction.hole).set
              idx.toNat a).length := by
          simp; omega
        simp only [List.getD_eq_getElem?_getD, List.getElem?_set_self hlt, Option.getD_some]
      · intro j hj1 hj2
        have hne : idx.toNat ≠ j := by omega
        simp only [List.getD_eq_getElem?_getD]
        rw [List.getElem?_set_ne hne, List.getElem?_set_ne hne,
            List.getElem?_append_right hj1]
        rw [List.getElem?_replicate]
        rw [if_pos (by omega)]
        simp
    · have hlt2 : idx.toNat < tbl.length := by omega
      refine ⟨(tbl.set idx.toNat a).set idx.toNat b, ?_, ?_, ?_⟩
      · have e1 : placeInstruction tbl idx a = .ok (tbl.set idx.toNat a) := by
          simp only [placeInstruction]
          rw [if_neg hneg, if_neg hlen]
        have e2 : placeInstruction (tbl.set idx.toNat a) idx b =
            .ok ((tbl.set idx.toNat a).set idx.toNat b) := by
          simp only [placeInstruction]
          rw [if_neg hneg, if_neg (by simp; omega)]
        simp only [placeInstructions, e1, e2]
      · have hlt : idx.toNat < (tbl.set idx.toNat a).length := by simp; omega
        simp only [List.getD_eq_getElem?_getD, List.getElem?_set_self hlt, Option.getD_some]
      · intro j hj1 hj2
        omega
  · intro tbl idx a rest h
    simp [placeInstructions, placeInstruction, h]

/-- C10 witness: two lines both carrying index 2 placed into an empty table
succeed, the later instruction wins at slot 2, and slots 0 and 1 are holes. -/
theorem parse_slot_placement_overwrite_and_negative_witness :
    ∃ t, placeInstructions [((2 : Int), instrHLT2), ((2 : Int), instrRET2)] [] = .ok t ∧
         t.getD (2 : Int).toNat Instruction.hole = instrRET2 ∧
         ∀ j, ([] : List Instruction).length ≤ j → j < (2 : Int).toNat →
           t.getD j Instruction.hole = Instruction.hole :=
  parse_slot_placement_overwrite_and_negative.1 [] 2 instrHLT2 instrRET2 (by decide)
